import Mathlib

/-!
Verification development for the `data_pipeline` repository
(`forex_factory_scraper.py`, `align_news_to_ohlcv.py`, `label_filtered_candles.py`).

The Python sources are shallowly embedded below.  Machine-level details are
modelled as follows: byte strings are `List Nat` (each element `< 256`),
32-bit words are `Nat` reduced modulo `2 ^ 32`, Python `datetime` values are a
record of calendar fields, epoch timestamps are `Nat` seconds, money/price
columns are `Rat`, and fallible Python code returns `Except String`.
External collaborators (BeautifulSoup, js2py, demjson3, pandas CSV I/O, the
Selenium driver) are modelled at their interface boundary: the embedding
receives the already-extracted cell texts / decoded object structure that the
library call would have produced, and the decode step of a script blob is an
`Option` capturing success or failure of the library parse.
-/

set_option maxRecDepth 1000000

namespace DataPipeline

/-! ### 32-bit word arithmetic on `Nat` -/

/-- `2 ^ 32`, the modulus for 32-bit words. -/
def w32mod : Nat := 4294967296

/-- Addition modulo `2 ^ 32`. -/
def add32 (a b : Nat) : Nat := (a + b) % w32mod

/-- Bitwise complement of a 32-bit word (xor with `0xFFFFFFFF`). -/
def not32 (a : Nat) : Nat := a ^^^ 4294967295

/-- Left rotation of a 32-bit word by `s` places. -/
def rotl32 (x s : Nat) : Nat := ((x <<< s) ||| (x >>> (32 - s))) % w32mod

/-! ### MD5 (RFC 1321), used by the scraper for `event_id` digests
(`hashlib.md5(id_input.encode()).hexdigest()`). -/

/-- The MD5 sine-derived constant table `K`. -/
def md5K : List Nat := [
  3614090360, 3905402710, 606105819, 3250441966, 4118548399, 1200080426, 2821735955, 4249261313,
  1770035416, 2336552879, 4294925233, 2304563134, 1804603682, 4254626195, 2792965006, 1236535329,
  4129170786, 3225465664, 643717713, 3921069994, 3593408605, 38016083, 3634488961, 3889429448,
  568446438, 3275163606, 4107603335, 1163531501, 2850285829, 4243563512, 1735328473, 2368359562,
  4294588738, 2272392833, 1839030562, 4259657740, 2763975236, 1272893353, 4139469664, 3200236656,
  681279174, 3936430074, 3572445317, 76029189, 3654602809, 3873151461, 530742520, 3299628645,
  4096336452, 1126891415, 2878612391, 4237533241, 1700485571, 2399980690, 4293915773, 2240044497,
  1873313359, 4264355552, 2734768916, 1309151649, 4149444226, 3174756917, 718787259, 3951481745]

/-- The MD5 per-round left-rotation amounts. -/
def md5S : List Nat := [
  7, 12, 17, 22, 7, 12, 17, 22, 7, 12, 17, 22, 7, 12, 17, 22,
  5, 9, 14, 20, 5, 9, 14, 20, 5, 9, 14, 20, 5, 9, 14, 20,
  4, 11, 16, 23, 4, 11, 16, 23, 4, 11, 16, 23, 4, 11, 16, 23,
  6, 10, 15, 21, 6, 10, 15, 21, 6, 10, 15, 21, 6, 10, 15, 21]

/-- `k` little-endian bytes of `n`. -/
def leBytes (n k : Nat) : List Nat := (List.range k).map (fun i => (n >>> (8 * i)) % 256)

/-- MD5 padding: append `0x80`, zero bytes to 56 mod 64, then the 64-bit
little-endian bit length. -/
def md5Pad (msg : List Nat) : List Nat :=
  let k := (64 + 56 - ((msg.length + 1) % 64)) % 64
  msg ++ [128] ++ List.replicate k 0 ++ leBytes ((8 * msg.length) % (w32mod * w32mod)) 8

/-- Word `j` (little-endian 32-bit) of a 64-byte chunk. -/
def le32At (bs : List Nat) (j : Nat) : Nat :=
  bs.getD (4 * j) 0 + 256 * bs.getD (4 * j + 1) 0 + 65536 * bs.getD (4 * j + 2) 0 +
    16777216 * bs.getD (4 * j + 3) 0

/-- Split a byte list into 64-byte chunks (fuel-based structural recursion). -/
def chunks64 : Nat → List Nat → List (List Nat)
  | 0, _ => []
  | _, [] => []
  | fuel + 1, bs => bs.take 64 :: chunks64 fuel (bs.drop 64)

/-- MD5 running state: the four 32-bit registers. -/
structure MD5St where
  a : Nat
  b : Nat
  c : Nat
  d : Nat
deriving Repr, DecidableEq

/-- The MD5 nonlinear function and message index for round `i`. -/
def md5FG (i b c d : Nat) : Nat × Nat :=
  if i < 16 then ((b &&& c) ||| (not32 b &&& d), i)
  else if i < 32 then ((d &&& b) ||| (not32 d &&& c), (5 * i + 1) % 16)
  else if i < 48 then (b ^^^ c ^^^ d, (3 * i + 5) % 16)
  else (c ^^^ (b ||| not32 d), (7 * i) % 16)

/-- One MD5 round applied to the register state. -/
def md5Round (chunk : List Nat) (st : MD5St) (i : Nat) : MD5St :=
  let fg := md5FG i st.b st.c st.d
  let f2 := add32 (add32 (add32 fg.1 st.a) (md5K.getD i 0)) (le32At chunk fg.2)
  { a := st.d, b := add32 st.b (rotl32 f2 (md5S.getD i 0)), c := st.b, d := st.c }

/-- Process one 64-byte chunk. -/
def md5Chunk (st : MD5St) (chunk : List Nat) : MD5St :=
  let r := (List.range 64).foldl (md5Round chunk) st
  { a := add32 st.a r.a, b := add32 st.b r.b, c := add32 st.c r.c, d := add32 st.d r.d }

/-- Hex digit character for `n < 16` (lowercase, as Python `hexdigest`). -/
def hexChar (n : Nat) : Char := if n < 10 then Char.ofNat (48 + n) else Char.ofNat (87 + n)

/-- Two-character lowercase hex rendering of one byte. -/
def byteHex (n : Nat) : List Char := [hexChar (n / 16), hexChar (n % 16)]

/-- MD5 digest of a byte list, rendered as the 32-character lowercase hex
string returned by `hashlib.md5(...).hexdigest()`. -/
def md5Hex (msg : List Nat) : String :=
  let padded := md5Pad msg
  let st := (chunks64 padded.length padded).foldl md5Chunk
    { a := 1732584193, b := 4023233417, c := 2562383102, d := 271733878 }
  String.mk (((leBytes st.a 4 ++ leBytes st.b 4 ++ leBytes st.c 4 ++ leBytes st.d 4).map byteHex).flatten)

/-- UTF-8 encoding of one character (Python `str.encode()`). -/
def utf8Char (c : Char) : List Nat :=
  let n := c.toNat
  if n < 128 then [n]
  else if n < 2048 then [192 + n / 64, 128 + n % 64]
  else if n < 65536 then [224 + n / 4096, 128 + (n / 64) % 64, 128 + n % 64]
  else [240 + n / 262144, 128 + (n / 4096) % 64, 128 + (n / 64) % 64, 128 + n % 64]

/-- UTF-8 bytes of a string. -/
def utf8Bytes (s : String) : List Nat := (s.data.map utf8Char).flatten

/-- `hashlib.md5(s.encode()).hexdigest()` as used for every `event_id`. -/
def md5HexStr (s : String) : String := md5Hex (utf8Bytes s)

/-! ### Python `datetime` values -/

/-- A Python `datetime` value (microseconds are always zero in this program). -/
structure PyDateTime where
  year : Nat
  month : Nat
  day : Nat
  hour : Nat
  minute : Nat
  second : Nat
deriving Repr, DecidableEq

/-- Zero-padded two-digit decimal rendering. -/
def pad2 (n : Nat) : String := if n < 10 then "0" ++ toString n else toString n

/-- Zero-padded four-digit decimal rendering. -/
def pad4 (n : Nat) : String :=
  if n < 10 then "000" ++ toString n
  else if n < 100 then "00" ++ toString n
  else if n < 1000 then "0" ++ toString n
  else toString n

/-- Python `str(datetime)` / f-string interpolation of a `datetime`:
`YYYY-MM-DD HH:MM:SS` (no microsecond part when it is zero). -/
def pyDatetimeStr (dt : PyDateTime) : String :=
  pad4 dt.year ++ "-" ++ pad2 dt.month ++ "-" ++ pad2 dt.day ++ " " ++
    pad2 dt.hour ++ ":" ++ pad2 dt.minute ++ ":" ++ pad2 dt.second

/-- Number of days in a month (proleptic Gregorian, as Python `datetime`). -/
def daysInMonth (y m : Nat) : Nat :=
  if m = 2 then (if y % 4 = 0 ∧ (y % 100 ≠ 0 ∨ y % 400 = 0) then 29 else 28)
  else if m = 4 ∨ m = 6 ∨ m = 9 ∨ m = 11 then 30
  else 31

/-- `datetime.fromtimestamp(e)` for a nonnegative epoch-second value, in a UTC
process environment (civil-from-days conversion). -/
def epochToDateTime (e : Nat) : PyDateTime :=
  let days := e / 86400
  let rem := e % 86400
  let z := days + 719468
  let era := z / 146097
  let doe := z % 146097
  let yoe := (doe - doe / 1460 + doe / 36524 - doe / 146097) / 365
  let y := yoe + era * 400
  let doy := doe - (365 * yoe + yoe / 4 - yoe / 100)
  let mp := (5 * doy + 2) / 153
  let d := doy - (153 * mp + 2) / 5 + 1
  let m := if mp < 10 then mp + 3 else mp - 9
  let yy := if m ≤ 2 then y + 1 else y
  { year := yy, month := m, day := d, hour := rem / 3600, minute := rem % 3600 / 60,
    second := rem % 60 }

/-! ### Python `datetime.strptime` for the two formats used by
`parse_calendar_time`: `"%a %b %d %Y %I:%M%p"` and `"%a %b %d %Y"`.

CPython's `_strptime` lowercases the input, turns each run of literal
whitespace in the format into the regex `\s+` (at least one whitespace
character required), and matches directive patterns
`%a = (mon|tue|...)`, `%b = (jan|feb|...)`, `%d = 3[01]|[12]\d|0[1-9]|[1-9]| [1-9]`,
`%Y = \d{4}`, `%I = 1[0-2]|0[1-9]|[1-9]`, `%M = [0-5]\d|\d`, `%p = (am|pm)`,
requiring the whole input to be consumed.  The matcher below reproduces this
with ordered-alternative backtracking.  The parsed weekday is matched but not
used (CPython does not cross-check it against the date). -/

/-- Tokens of a compiled strptime format string. -/
inductive FTok where
  | wd
  | mon
  | dayNum
  | year4
  | hour12
  | minuteNum
  | ampm
  | ws
  | lit (c : Char)
deriving Repr, DecidableEq

/-- Fields collected while matching (initialised to CPython's defaults). -/
structure TimeFields where
  mon : Nat
  day : Nat
  year : Nat
  hour12 : Nat
  minute : Nat
  pm : Bool
deriving Repr, DecidableEq

/-- Lowercase month abbreviations, value = index + 1. -/
def monNames : List String := ["jan", "feb", "mar", "apr", "may", "jun",
  "jul", "aug", "sep", "oct", "nov", "dec"]

/-- Lowercase weekday abbreviations. -/
def wdNames : List String := ["mon", "tue", "wed", "thu", "fri", "sat", "sun"]

/-- Try to strip one fixed word from the front of the character list. -/
def stripWord (w : List Char) (cs : List Char) : Option (List Char) :=
  match w, cs with
  | [], rest => some rest
  | _ :: _, [] => none
  | x :: xs, c :: rest => if x = c then stripWord xs rest else none

/-- First alternative of a word list that is a prefix, with the rest. -/
def matchWords (ws : List String) (cs : List Char) : Option (List Char) :=
  match ws with
  | [] => none
  | w :: rest =>
    match stripWord w.data cs with
    | some r => some r
    | none => matchWords rest cs

/-- Month-abbreviation match returning the month number. -/
def matchMon (names : List String) (k : Nat) (cs : List Char) : Option (Nat × List Char) :=
  match names with
  | [] => none
  | w :: rest =>
    match stripWord w.data cs with
    | some r => some (k, r)
    | none => matchMon rest (k + 1) cs

/-- Digit value of a character, if it is a decimal digit. -/
def digitVal (c : Char) : Option Nat := if c.isDigit then some (c.toNat - 48) else none

/-- The ordered alternatives of the `%d` pattern `3[01]|[12]\d|0[1-9]|[1-9]| [1-9]`. -/
def dayAlts (cs : List Char) : List (Nat × List Char) :=
  (match cs with
    | '3' :: '0' :: r => [(30, r)]
    | '3' :: '1' :: r => [(31, r)]
    | _ => []) ++
  (match cs with
    | c1 :: c2 :: r =>
      match digitVal c1, digitVal c2 with
      | some d1, some d2 => if 1 ≤ d1 ∧ d1 ≤ 2 then [(10 * d1 + d2, r)] else []
      | _, _ => []
    | _ => []) ++
  (match cs with
    | '0' :: c2 :: r =>
      match digitVal c2 with
      | some d2 => if 1 ≤ d2 then [(d2, r)] else []
      | none => []
    | _ => []) ++
  (match cs with
    | c1 :: r =>
      match digitVal c1 with
      | some d1 => if 1 ≤ d1 then [(d1, r)] else []
      | none => []
    | _ => []) ++
  (match cs with
    | ' ' :: c2 :: r =>
      match digitVal c2 with
      | some d2 => if 1 ≤ d2 then [(d2, r)] else []
      | none => []
    | _ => [])

/-- The ordered alternatives of the `%I` pattern `1[0-2]|0[1-9]|[1-9]`. -/
def hourAlts (cs : List Char) : List (Nat × List Char) :=
  (match cs with
    | '1' :: c2 :: r =>
      match digitVal c2 with
      | some d2 => if d2 ≤ 2 then [(10 + d2, r)] else []
      | none => []
    | _ => []) ++
  (match cs with
    | '0' :: c2 :: r =>
      match digitVal c2 with
      | some d2 => if 1 ≤ d2 then [(d2, r)] else []
      | none => []
    | _ => []) ++
  (match cs with
    | c1 :: r =>
      match digitVal c1 with
      | some d1 => if 1 ≤ d1 then [(d1, r)] else []
      | none => []
    | _ => [])

/-- The ordered alternatives of the `%M` pattern `[0-5]\d|\d`. -/
def minuteAlts (cs : List Char) : List (Nat × List Char) :=
  (match cs with
    | c1 :: c2 :: r =>
      match digitVal c1, digitVal c2 with
      | some d1, some d2 => if d1 ≤ 5 then [(10 * d1 + d2, r)] else []
      | _, _ => []
    | _ => []) ++
  (match cs with
    | c1 :: r =>
      match digitVal c1 with
      | some d1 => [(d1, r)]
      | none => []
    | _ => [])

/-- Four decimal digits (`%Y`). -/
def year4Alt (cs : List Char) : List (Nat × List Char) :=
  match cs with
  | c1 :: c2 :: c3 :: c4 :: r =>
    match digitVal c1, digitVal c2, digitVal c3, digitVal c4 with
    | some d1, some d2, some d3, some d4 => [(1000 * d1 + 100 * d2 + 10 * d3 + d4, r)]
    | _, _, _, _ => []
  | _ => []

/-- Greedy-first alternatives of `\s+`: consume `m` down to `1` leading
whitespace characters. -/
def wsAlts (cs : List Char) : List (List Char) :=
  let m := (cs.takeWhile Char.isWhitespace).length
  (List.range m).map (fun i => cs.drop (m - i))

/-- The alternative outcomes `(updated fields, remaining input)` of matching
one token, in regex priority order. -/
def tokAlts (t : FTok) (cs : List Char) (tf : TimeFields) : List (TimeFields × List Char) :=
  match t with
  | .wd =>
    match matchWords wdNames cs with
    | some r => [(tf, r)]
    | none => []
  | .mon =>
    match matchMon monNames 1 cs with
    | some (m, r) => [({ tf with mon := m }, r)]
    | none => []
  | .dayNum => (dayAlts cs).map (fun p => ({ tf with day := p.1 }, p.2))
  | .year4 => (year4Alt cs).map (fun p => ({ tf with year := p.1 }, p.2))
  | .hour12 => (hourAlts cs).map (fun p => ({ tf with hour12 := p.1 }, p.2))
  | .minuteNum => (minuteAlts cs).map (fun p => ({ tf with minute := p.1 }, p.2))
  | .ampm =>
    (match stripWord ['a', 'm'] cs with
      | some r => [({ tf with pm := false }, r)]
      | none => []) ++
    (match stripWord ['p', 'm'] cs with
      | some r => [({ tf with pm := true }, r)]
      | none => [])
  | .ws => (wsAlts cs).map (fun r => (tf, r))
  | .lit c => match cs with
    | c2 :: r => if c = c2 then [(tf, r)] else []
    | [] => []

/-- First alternative for which the continuation succeeds. -/
def firstSome {α β : Type} (l : List α) (f : α → Option β) : Option β :=
  match l with
  | [] => none
  | a :: rest =>
    match f a with
    | some b => some b
    | none => firstSome rest f

/-- Backtracking matcher over a token list; requires the whole input to be
consumed (CPython raises `unconverted data remains` otherwise).  Fuel-based
structural recursion; every token alternative consumes at least one
character, so `input length + 1` fuel suffices. -/
def runToks : Nat → List FTok → List Char → TimeFields → Option TimeFields
  | _, [], [], tf => some tf
  | _, [], _ :: _, _ => none
  | 0, _ :: _, _, _ => none
  | fuel + 1, t :: ts, cs, tf =>
    firstSome (tokAlts t cs tf) (fun p => runToks fuel ts p.2 p.1)

/-- Compiled form of `"%a %b %d %Y %I:%M%p"`. -/
def fmtFullToks : List FTok :=
  [.wd, .ws, .mon, .ws, .dayNum, .ws, .year4, .ws, .hour12, .lit ':', .minuteNum, .ampm]

/-- Compiled form of `"%a %b %d %Y"`. -/
def fmtDateToks : List FTok :=
  [.wd, .ws, .mon, .ws, .dayNum, .ws, .year4]

/-- Run the matcher on a string (lowercased, as CPython does). -/
def strptimeFields (toks : List FTok) (s : String) : Option TimeFields :=
  runToks (s.data.length + 1) toks (s.data.map Char.toLower)
    { mon := 1, day := 1, year := 1900, hour12 := 0, minute := 0, pm := false }

/-- Validating `datetime(...)` construction from matched fields (the regex
already bounds month/hour/minute; the constructor checks the day of month). -/
def mkDateTime (y m d h mi : Nat) : Option PyDateTime :=
  if 1 ≤ y ∧ 1 ≤ d ∧ d ≤ daysInMonth y m then
    some { year := y, month := m, day := d, hour := h, minute := mi, second := 0 }
  else none

/-- `datetime.strptime(s, "%a %b %d %Y %I:%M%p")` with CPython's
`%I`/`%p` hour adjustment. -/
def strptimeFull (s : String) : Option PyDateTime :=
  match strptimeFields fmtFullToks s with
  | none => none
  | some tf =>
    let h := if tf.pm then (if tf.hour12 = 12 then 12 else tf.hour12 + 12)
             else (if tf.hour12 = 12 then 0 else tf.hour12)
    mkDateTime tf.year tf.mon tf.day h tf.minute

/-- `datetime.strptime(s, "%a %b %d %Y")`. -/
def strptimeDate (s : String) : Option PyDateTime :=
  match strptimeFields fmtDateToks s with
  | none => none
  | some tf => mkDateTime tf.year tf.mon tf.day 0 0

/-! ### `parse_calendar_time` (forex_factory_scraper.py lines 141-156) -/

/-- The fused-day repair: insert a space after the three-letter weekday when
`len(day_str) >= 6 and not day_str[3].isspace()`. -/
def repairDay (s : String) : String :=
  let cs := s.data
  if cs.length < 6 then s
  else if (cs.getD 3 ' ').isWhitespace then s
  else String.mk (cs.take 3 ++ [' '] ++ cs.drop 3)

/-- `parse_calendar_time(week_date, day_str, time_str)`: repair the day
string, try the full format on `f"{day_str} {week_date.year} {time_str}"`,
fall back to the date-only format on `f"{day_str} {week_date.year}"`, and
raise `RuntimeError` when both fail.  Only `week_date.year` is read from the
week anchor. -/
def parse_calendar_time (weekYear : Nat) (dayStr timeStr : String) : Except String PyDateTime :=
  match strptimeFull (repairDay dayStr ++ " " ++ toString weekYear ++ " " ++ timeStr) with
  | some dt => .ok dt
  | none =>
    match strptimeDate (repairDay dayStr ++ " " ++ toString weekYear) with
    | some dt => .ok dt
    | none => .error ("Failed to parse date: " ++ dayStr ++ " " ++ timeStr)

/-! ### Normalized event records and the parsing strategies -/

/-- Python `x or y` on strings: `y` when `x` is empty. -/
def orElseStr (a b : String) : String := if a = "" then b else a

/-- Python `str.strip()` (whitespace removed from both ends), implemented
over the character list. -/
def pyStrip (s : String) : String :=
  String.mk ((((s.data.dropWhile Char.isWhitespace).reverse).dropWhile
    Char.isWhitespace).reverse)

/-- One normalized calendar event row as built by the parsing strategies. -/
structure CalendarEvent where
  timestamp : PyDateTime
  currency : String
  impact : String
  event : String
  actual : String
  forecast : String
  previous : String
  day : String
  event_id : String
deriving Repr, DecidableEq

/-- One `tr.calendar__row` of the DOM, at the BeautifulSoup interface
boundary: each field is the already-extracted text of the corresponding cell
(`get_text(strip=True)`, or the stripped `title` attribute for the impact
cell), `none` when the cell/span is absent from the row. -/
structure DomRow where
  timeCell : Option String
  dateCell : Option String
  currencyCell : Option String
  impactTitle : Option String
  eventTitle : Option String
  actualCell : Option String
  forecastCell : Option String
  previousCell : Option String
deriving Repr, DecidableEq

/-- The day heading in force for a row: its own date cell when present,
otherwise the day inherited from prior rows. -/
def effectiveDay (cur : String) (r : DomRow) : String :=
  match r.dateCell with
  | some s => s
  | none => cur

/-- The body of `parse_calendar_dom`'s row loop (lines 165-216): update the
inherited `current_day`, skip the row when the time string or the inherited
day is empty, parse the timestamp (a parse failure is caught by the row-level
`except` and the row skipped), and build the event with
`id_input = f"{timestamp}{currency}{event_name or actual+forecast+previous}"`.
Returns the new `current_day` and the kept event, if any. -/
def domRowStep (weekYear : Nat) (cur : String) (r : DomRow) : String × Option CalendarEvent :=
  let time_str := r.timeCell.getD ""
  let cur2 := effectiveDay cur r
  let currency := r.currencyCell.getD ""
  let impact := r.impactTitle.getD ""
  let event_name := r.eventTitle.getD ""
  let actual := r.actualCell.getD ""
  let forecast := r.forecastCell.getD ""
  let previous := r.previousCell.getD ""
  if time_str = "" ∨ cur2 = "" then (cur2, none)
  else
    match parse_calendar_time weekYear cur2 time_str with
    | .error _ => (cur2, none)
    | .ok ts =>
      let id_input := pyDatetimeStr ts ++ currency ++
        orElseStr event_name (actual ++ forecast ++ previous)
      let ev : CalendarEvent :=
        { timestamp := ts, currency := currency, impact := impact,
          event := event_name, actual := actual, forecast := forecast,
          previous := previous, day := cur2, event_id := md5HexStr id_input }
      (cur2, some ev)

/-- The row scan of `parse_calendar_dom`, threading `current_day`. -/
def domScan (weekYear : Nat) : List DomRow → String → List CalendarEvent
  | [], _ => []
  | r :: rs, cur =>
    let p := domRowStep weekYear cur r
    match p.2 with
    | some ev => ev :: domScan weekYear rs p.1
    | none => domScan weekYear rs p.1

/-- `parse_calendar_dom(html, week_date)` (lines 159-218), at the
BeautifulSoup boundary: the selected `tr.calendar__row` elements are the
input, `current_day` starts empty. -/
def parse_calendar_dom (weekYear : Nat) (rows : List DomRow) : List CalendarEvent :=
  domScan weekYear rows ""

/-- One event object of the embedded calendar state, at the js2py/demjson3
boundary: `dateline` is the numeric epoch field (`none` when absent), the
string fields are `none` when absent (`.get(..., "")` defaults them to `""`). -/
structure JsonEvent where
  dateline : Option Nat
  name : Option String
  currency : Option String
  impactTitle : Option String
  actual : Option String
  forecast : Option String
  previous : Option String
deriving Repr, DecidableEq

/-- One day object of the embedded calendar state; `date` is the day label
text after BeautifulSoup HTML stripping. -/
structure JsonDay where
  date : String
  events : List JsonEvent
deriving Repr, DecidableEq

/-- The decoded `calendarComponentStates[1]` object, at the js2py boundary:
`daysTop` is `calendar_data.get("days")` and `oneDays` is
`calendar_data.get("1", {}).get("days")`. -/
structure CalendarStates where
  daysTop : Option (List JsonDay)
  oneDays : Option (List JsonDay)
deriving Repr, DecidableEq

/-- Python `a or b` over optional day lists: an empty list is falsy. -/
def pyOrDays (a b : Option (List JsonDay)) : Option (List JsonDay) :=
  match a with
  | some l => if l = [] then b else some l
  | none => b

/-- A raw page payload at the parser boundary: `statesBlob` is the result of
locating the `calendarComponentStates[1] = {...};` script assignment
(`none`: the regex anchor is absent) and of decoding it with js2py
(inner `none`: the decode raises); `domRows` are the page's calendar table
rows; `weekYear` the anchor year of the requested week. -/
structure PageContent where
  statesBlob : Option (Option CalendarStates)
  domRows : List DomRow
  weekYear : Nat
deriving Repr, DecidableEq

/-- The `id_input` of the js2py strategy (lines 339-340):
`f"{timestamp}{currency}{event_text}"` (no actual/forecast/previous). -/
def htmlIdInput (ts : PyDateTime) (currency event_text : String) : String :=
  pyDatetimeStr ts ++ currency ++ event_text

/-- The event conversion of the js2py strategy (lines 323-354): skip events
with a missing or falsy (zero) `dateline`, strip the string fields, hash
`id_input` into `event_id`. -/
def htmlEventsOfDays (days : List JsonDay) : List CalendarEvent :=
  (days.map (fun day =>
    day.events.filterMap (fun e =>
      match e.dateline with
      | none => none
      | some 0 => none
      | some ts =>
        let timestamp := epochToDateTime ts
        let event_text := pyStrip (e.name.getD "")
        let currency := pyStrip (e.currency.getD "")
        let ev : CalendarEvent :=
          { timestamp := timestamp, currency := currency,
            impact := pyStrip (e.impactTitle.getD ""),
            event := event_text,
            actual := pyStrip (e.actual.getD ""),
            forecast := pyStrip (e.forecast.getD ""),
            previous := pyStrip (e.previous.getD ""),
            day := day.date,
            event_id := md5HexStr (htmlIdInput timestamp currency event_text) }
        some ev))).flatten

/-- `parse_calendar_html(html)` (lines 295-357), the only strategy invoked by
`scrape_week`: raise when the script anchor is absent, raise when js2py fails
to decode the blob, raise when the decoded object has no (non-empty) `days`
collection, otherwise convert every day's events. -/
def parse_calendar_html (p : PageContent) : Except String (List CalendarEvent) :=
  match p.statesBlob with
  | none => .error "Could not find calendarComponentStates[1] in HTML."
  | some none => .error "Failed to parse calendar JS with js2py"
  | some (some cal) =>
    match pyOrDays cal.daysTop cal.oneDays with
    | none => .error "JSON structure invalid: no days in calendarComponentStates[1]"
    | some [] => .error "JSON structure invalid: no days in calendarComponentStates[1]"
    | some days => .ok (htmlEventsOfDays days)

/-- The decoded `window.calendarComponentStates` object, at the demjson3
boundary: `one` is `data.get("1", {})`, whose `days` key may be absent. -/
structure CalendarJsonData where
  oneDays : Option (List JsonDay)
deriving Repr, DecidableEq

/-- The fallback name used by `parse_calendar_html_json` when the event name
is empty: `f"actual:{actual}|forecast:{forecast}|previous:{previous}"`. -/
def jsonFallbackEvent (actual forecast previous : String) : String :=
  "actual:" ++ actual ++ "|forecast:" ++ forecast ++ "|previous:" ++ previous

/-- The `id_input` of the demjson3 strategy (lines 122-123):
`f"{timestamp}{currency}{event_text or fallback_event}"`. -/
def jsonIdInput (ts : PyDateTime) (currency event_text actual forecast previous : String) : String :=
  pyDatetimeStr ts ++ currency ++
    orElseStr event_text (jsonFallbackEvent actual forecast previous)

/-- The `event_id` computed by `parse_calendar_html_json` (line 124). -/
def json_event_id (ts : PyDateTime) (currency event_text actual forecast previous : String) : String :=
  md5HexStr (jsonIdInput ts currency event_text actual forecast previous)

/-- `parse_calendar_html_json(data)` (lines 105-139): raise when
`cal_state` has no `"days"` key; per event, `e["dateline"]` is accessed
directly, so a missing `dateline` raises `KeyError`, which the per-event
`except` turns into a skip; the identity input falls back to the
actual/forecast/previous composite when the name is empty. -/
def parse_calendar_html_json (data : CalendarJsonData) : Except String (List CalendarEvent) :=
  match data.oneDays with
  | none => .error "Unexpected calendar structure in JSON."
  | some days =>
    .ok ((days.map (fun day =>
      day.events.filterMap (fun e =>
        match e.dateline with
        | none => none
        | some ts =>
          let timestamp := epochToDateTime ts
          let event_text := pyStrip (e.name.getD "")
          let currency := pyStrip (e.currency.getD "")
          let actual := pyStrip (e.actual.getD "")
          let forecast := pyStrip (e.forecast.getD "")
          let previous := pyStrip (e.previous.getD "")
          let ev : CalendarEvent :=
            { timestamp := timestamp, currency := currency,
              impact := pyStrip (e.impactTitle.getD ""),
              event := event_text, actual := actual, forecast := forecast,
              previous := previous, day := day.date,
              event_id := json_event_id timestamp currency event_text actual forecast previous }
          some ev))).flatten)

/-- The parse-and-save stage of `scrape_week` (lines 385-405), after the page
has been fetched: any `parse_calendar_html` error is caught and re-raised as
`RuntimeError`; an empty frame (hence no `timestamp` column) raises too; the
`notnull` timestamp filter keeps every row of this embedding (every built
event carries a timestamp), so a non-empty parse is saved. -/
def scrapeParse (p : PageContent) : Except String (List CalendarEvent) :=
  match parse_calendar_html p with
  | .error e => .error ("Failed to parse calendar: " ++ e)
  | .ok df =>
    if df.isEmpty then
      .error "Failed to parse calendar: No valid timestamp in parsed calendar data."
    else .ok df

/-! ### `merge_all_weeks` (lines 407-422) and the campaign loop of `main`
(lines 446-489) -/

/-- One row of a persisted weekly CSV as read back by `pd.read_csv`
(every column a string; the `timestamp` column carries the
`YYYY-MM-DD HH:MM:SS` rendering, whose lexicographic order is chronological). -/
structure CsvRow where
  timestamp : String
  currency : String
  impact : String
  event : String
  actual : String
  forecast : String
  previous : String
  day : String
  event_id : String
deriving Repr, DecidableEq

/-- Code-point lexicographic comparison of character lists (the order Python
and pandas use on strings). -/
def charListLe : List Char → List Char → Bool
  | [], _ => true
  | _ :: _, [] => false
  | a :: as, b :: bs =>
    if a.toNat < b.toNat then true
    else if b.toNat < a.toNat then false
    else charListLe as bs

/-- Lexicographic string comparison. -/
def strLe (a b : String) : Bool := charListLe a.data b.data

/-- `merge_all_weeks`: concatenate the weekly tables (in filename order) and
sort by the `timestamp` column.  No deduplication is applied.  The sort is
modelled by a stable insertion sort; `pandas.sort_values` uses an unstable
quicksort, so only permutation-invariant facts (row multisets, counts) are
read off this definition. -/
def merge_all_weeks (tables : List (List CsvRow)) : List CsvRow :=
  List.insertionSort (fun a b : CsvRow => strLe a.timestamp b.timestamp = true) tables.flatten

/-- Outcome of one `scrape_week(driver, week)` call: an exception, a return
with no timestamped events (nothing saved), or a saved weekly table. -/
inductive ScrapeOut where
  | fail
  | okEmpty
  | okSave (rows : List CsvRow)
deriving Repr, DecidableEq

/-- The persisted weekly files, keyed by week-anchor day number
(`calendar/week_YYYYMMDD.csv`). -/
def lookupFile (files : List (Nat × List CsvRow)) (w : Nat) : Option (List CsvRow) :=
  (files.find? (fun p => p.1 = w)).map (fun p => p.2)

/-- The week anchors visited by `main`: `start, start+7, ...` while
`current <= end` (fuel-based; the fuel `endD + 1 - start` bounds the
iteration count since each step advances by 7 days). -/
def weeksFrom : Nat → Nat → Nat → List Nat
  | 0, _, _ => []
  | fuel + 1, cur, endD => if cur ≤ endD then cur :: weeksFrom fuel (cur + 7) endD else []

/-- All week anchors of the campaign range. -/
def campaignWeeks (start endD : Nat) : List Nat := weeksFrom (endD + 1 - start) start endD

/-- The attempt loop of `main` for one uncached week (lines 462-477): up to
`MAX_RETRIES = 3` attempts, breaking at the first non-raising call; the
`for`-`else` marks the week failed when all attempts raise.  `scrape w a`
is the outcome of attempt `a` for week `w`.  Returns
(fetch calls made, saved table if any, failed flag). -/
def runWeekAttempts (scrape : Nat → Nat → ScrapeOut) (w : Nat) :
    List Nat → Nat × Option (List CsvRow) × Bool
  | [] => (0, none, true)
  | a :: rest =>
    match scrape w a with
    | .fail =>
      let r := runWeekAttempts scrape w rest
      (r.1 + 1, r.2)
    | .okEmpty => (1, none, false)
    | .okSave rows => (1, some rows, false)

/-- The mutable state of the campaign loop. -/
structure LoopState where
  fetchCalls : Nat
  files : List (Nat × List CsvRow)
  skippedWeeks : List Nat
  failedWeeks : List Nat
  processed : List Nat
deriving Repr, DecidableEq

/-- One iteration of `main`'s `while current <= end` loop: skip the week
without any fetch when its file already exists, otherwise run the attempt
loop, persisting a saved table and recording a terminal failure when the
retries are exhausted.  The loop never aborts. -/
def stepWeek (scrape : Nat → Nat → ScrapeOut) (st : LoopState) (w : Nat) : LoopState :=
  match lookupFile st.files w with
  | some _ =>
    { st with skippedWeeks := st.skippedWeeks ++ [w], processed := st.processed ++ [w] }
  | none =>
    let r := runWeekAttempts scrape w [1, 2, 3]
    let files2 := match r.2.1 with
      | some rows => st.files ++ [(w, rows)]
      | none => st.files
    { fetchCalls := st.fetchCalls + r.1, files := files2,
      skippedWeeks := st.skippedWeeks,
      failedWeeks := if r.2.2 then st.failedWeeks ++ [w] else st.failedWeeks,
      processed := st.processed ++ [w] }

/-- The whole week loop. -/
def runLoop (scrape : Nat → Nat → ScrapeOut) (ws : List Nat) (st : LoopState) : LoopState :=
  ws.foldl (stepWeek scrape) st

/-- The tables of the persisted files in filename (anchor) order, as
`merge_all_weeks` lists the directory sorted. -/
def tablesInOrder (files : List (Nat × List CsvRow)) : List (List CsvRow) :=
  (List.insertionSort (fun a b : Nat × List CsvRow => a.1 ≤ b.1) files).map (fun p => p.2)

/-- The merged output written by `merge_all_weeks`: `none` (warning, nothing
written) when no weekly file exists. -/
def campaignMerged (files : List (Nat × List CsvRow)) : Option (List CsvRow) :=
  if files.isEmpty then none else some (merge_all_weeks (tablesInOrder files))

/-- The result of one `main` run. -/
structure CampaignResult where
  fetchCalls : Nat
  files : List (Nat × List CsvRow)
  skippedWeeks : List Nat
  failedWeeks : List Nat
  processed : List Nat
  mergedOutput : Option (List CsvRow)
deriving Repr, DecidableEq

/-- `main` (lines 446-489) from the week loop on: iterate the anchors over
the persisted-file state `files0`, then always call `merge_all_weeks`. -/
def runCampaign (scrape : Nat → Nat → ScrapeOut) (start endD : Nat)
    (files0 : List (Nat × List CsvRow)) : CampaignResult :=
  let st := runLoop scrape (campaignWeeks start endD)
    { fetchCalls := 0, files := files0, skippedWeeks := [], failedWeeks := [], processed := [] }
  { fetchCalls := st.fetchCalls, files := st.files, skippedWeeks := st.skippedWeeks,
    failedWeeks := st.failedWeeks, processed := st.processed,
    mergedOutput := campaignMerged st.files }

/-! ### `tag_news_to_candles` (align_news_to_ohlcv.py lines 6-39) -/

/-- One OHLCV candle at the join interface; `time` in epoch seconds. -/
structure Candle where
  time : Int
deriving Repr, DecidableEq

/-- One merged-calendar news row at the join interface; `timestamp` in epoch
seconds. -/
structure NewsRow where
  timestamp : Int
  impact : String
  event : String
  currency : String
deriving Repr, DecidableEq

/-- A candle row after the join, with the four attached news columns. -/
structure TaggedCandle where
  time : Int
  newsImpact : Option String
  newsEvent : Option String
  newsCurrency : Option String
  minutesFromNews : Option Int
deriving Repr, DecidableEq

/-- Helper for `pySplitWs`: scan the characters, accumulating the current
token (reversed). -/
def splitWsAux : List Char → List Char → List String
  | [], acc => if acc = [] then [] else [String.mk acc.reverse]
  | c :: cs, acc =>
    if c.isWhitespace then
      if acc = [] then splitWsAux cs []
      else String.mk acc.reverse :: splitWsAux cs []
    else splitWsAux cs (c :: acc)

/-- Python `str.split()` (split on whitespace runs, no empty tokens). -/
def pySplitWs (s : String) : List String := splitWsAux s.data []

/-- The events inside the `±window_minutes` window of a candle
(`window_start <= timestamp <= window_end`). -/
def nearbyNews (news : List NewsRow) (windowMinutes : Int) (c : Candle) : List NewsRow :=
  news.filter (fun n =>
    decide (c.time - windowMinutes * 60 ≤ n.timestamp) &&
      decide (n.timestamp ≤ c.time + windowMinutes * 60))

/-- The nearest windowed event: `sort_values('time_diff')` then `iloc[0]`
(`time_diff` is the absolute time distance to the candle). -/
def nearestNews (news : List NewsRow) (windowMinutes : Int) (c : Candle) : Option NewsRow :=
  (List.insertionSort
    (fun a b : NewsRow => (a.timestamp - c.time).natAbs ≤ (b.timestamp - c.time).natAbs)
    (nearbyNews news windowMinutes c)).head?

/-- The loop body of `tag_news_to_candles` for one candle: when the window is
non-empty, attach the first whitespace token of the nearest event's impact
(an empty token list means `closest['impact'].split()[0]` raises
`IndexError`), the event name, the currency, and
`int((candle_time - closest_timestamp).total_seconds() / 60)` (Python `int()`
truncates toward zero, as does `Int.tdiv`). -/
def tagOne (news : List NewsRow) (windowMinutes : Int) (c : Candle) :
    Except String TaggedCandle :=
  match nearbyNews news windowMinutes c with
  | [] => .ok { time := c.time, newsImpact := none, newsEvent := none,
                newsCurrency := none, minutesFromNews := none }
  | _ :: _ =>
    match nearestNews news windowMinutes c with
    | none => .ok { time := c.time, newsImpact := none, newsEvent := none,
                    newsCurrency := none, minutesFromNews := none }
    | some closest =>
      match pySplitWs closest.impact with
      | [] => .error "IndexError: list index out of range"
      | tok :: _ =>
        .ok { time := c.time, newsImpact := some tok, newsEvent := some closest.event,
              newsCurrency := some closest.currency,
              minutesFromNews := some (Int.tdiv (c.time - closest.timestamp) 60) }

/-- The candle loop; the first raising candle aborts the whole call. -/
def tagAll (news : List NewsRow) (windowMinutes : Int) :
    List Candle → Except String (List TaggedCandle)
  | [] => .ok []
  | c :: cs =>
    match tagOne news windowMinutes c with
    | .error e => .error e
    | .ok tc =>
      match tagAll news windowMinutes cs with
      | .error e => .error e
      | .ok rest => .ok (tc :: rest)

/-- `tag_news_to_candles(ohlcv_df, news_df, window_minutes)`: both tables are
sorted by time first, then each candle is tagged in order.  (The source
enumerates positions of the sorted frame but assigns through `.at[i, ...]`
by label; for a default-indexed, time-sorted candle table — the shape it is
called with — label and position coincide.) -/
def tag_news_to_candles (ohlcv : List Candle) (news : List NewsRow)
    (windowMinutes : Int) : Except String (List TaggedCandle) :=
  let candles := List.insertionSort (fun a b : Candle => a.time ≤ b.time) ohlcv
  let newsSorted := List.insertionSort (fun a b : NewsRow => a.timestamp ≤ b.timestamp) news
  tagAll newsSorted windowMinutes candles

/-! ### `generate_labels` (label_filtered_candles.py lines 41-58) -/

/-- A filtered candle row at the labeling interface; prices are modelled as
exact rationals (the claims under study concern control flow and comparison
outcomes, not float rounding). -/
structure PriceRow where
  close : Rat
deriving Repr, DecidableEq

/-- The labeling settings dictionary. -/
structure LabelSettings where
  horizon : Nat
  threshold : Rat
deriving Repr, DecidableEq

/-- A default row for out-of-range `iloc` reads (never reached when the
index is in range). -/
def dfltRow : PriceRow := { close := 0 }

/-- The label list built by `generate_labels`: one entry per
`i in range(len(df) - horizon)` followed by `horizon` `None` paddings. -/
def labelList (df : List PriceRow) (ls : LabelSettings) : List (Option Int) :=
  ((List.range (df.length - ls.horizon)).map (fun i =>
    let delta := (df.getD (i + ls.horizon) dfltRow).close - (df.getD i dfltRow).close
    if delta > ls.threshold then some 1
    else if delta < -ls.threshold then some (-1)
    else some 0))
  ++ List.replicate ls.horizon none

/-- `generate_labels(df, label_settings)`: the assignment
`df['label'] = labels` raises `ValueError` when the label list length differs
from the frame length (which happens exactly when `len(df) < horizon`,
since `range` of a negative length is empty). -/
def generate_labels (df : List PriceRow) (ls : LabelSettings) :
    Except String (List (PriceRow × Option Int)) :=
  let labels := labelList df ls
  if labels.length = df.length then .ok (df.zip labels)
  else .error "Length of values does not match length of index"

/-! ### Concrete inputs used by counterexamples and witnesses -/

/-- A well-formed DOM calendar row (CPI at 2:30pm under the Mon Jul 1
heading). -/
def cpiDomRow : DomRow :=
  { timeCell := some "2:30pm", dateCell := some "Mon Jul 1",
    currencyCell := some "USD", impactTitle := some "High Impact Expected",
    eventTitle := some "CPI", actualCell := some "", forecastCell := some "",
    previousCell := some "" }

/-- A page whose script blob is located but fails to decode (malformed
JSON-state) while its DOM markup carries one well-formed calendar row. -/
def malformedJsonPage : PageContent :=
  { statesBlob := some none, domRows := [cpiDomRow], weekYear := 2024 }

/-- Decoded calendar state with two events that differ only in `actual`
(empty names, identical timestamp/currency/forecast/previous). -/
def twinEventsData : CalendarJsonData :=
  { oneDays := some [
      { date := "Mon Jul 1",
        events := [
          { dateline := some 1719792000, name := some "", currency := some "USD",
            impactTitle := some "High", actual := some "1.0", forecast := some "2.0",
            previous := some "3.0" },
          { dateline := some 1719792000, name := some "", currency := some "USD",
            impactTitle := some "High", actual := some "9.9", forecast := some "2.0",
            previous := some "3.0" }] }] }

/-- The identity keys produced for `twinEventsData`. -/
def twinEventsKeys : List String :=
  ((parse_calendar_html_json twinEventsData).toOption.getD []).map (fun e => e.event_id)

/-- A weekly-table row with identity key `"k"` and `actual = "1.0"`. -/
def weekRowA : CsvRow :=
  { timestamp := "2024-07-01 08:30:00", currency := "USD", impact := "High",
    event := "CPI", actual := "1.0", forecast := "2.0", previous := "3.0",
    day := "Mon Jul 1", event_id := "k" }

/-- The same event observed a week later with a revised `actual = "2.0"`. -/
def weekRowB : CsvRow :=
  { timestamp := "2024-07-01 08:30:00", currency := "USD", impact := "High",
    event := "CPI", actual := "2.0", forecast := "2.0", previous := "3.0",
    day := "Mon Jul 1", event_id := "k" }

/-- A DOM row with a blank time string under an inherited day heading. -/
def blankTimeRow : DomRow :=
  { timeCell := some "", dateCell := some "Mon Jul 1", currencyCell := some "USD",
    impactTitle := some "High Impact Expected", eventTitle := some "CPI",
    actualCell := some "", forecastCell := some "", previousCell := some "" }

/-- A DOM row whose time string is `"All Day"`, with no date cell of its own
(it inherits the day heading from prior rows). -/
def allDayRow : DomRow :=
  { timeCell := some "All Day", dateCell := none, currencyCell := some "EUR",
    impactTitle := none, eventTitle := some "Bank Holiday",
    actualCell := none, forecastCell := none, previousCell := none }

/-- A candle at 12:00 (43200 epoch seconds). -/
def noonCandle : Candle := { time := 43200 }

/-- A news event at 12:45 (45900 epoch seconds). -/
def newsAt1245 : NewsRow :=
  { timestamp := 45900, impact := "High Impact Expected", event := "CPI",
    currency := "USD" }

/-- A news event at 12:45 whose impact field is whitespace-only. -/
def blankImpactNews : NewsRow :=
  { timestamp := 45900, impact := "   ", event := "CPI", currency := "USD" }

/-- The tagged row produced for `noonCandle` joined with `newsAt1245`. -/
def noonTagged : TaggedCandle :=
  { time := 43200, newsImpact := some "High", newsEvent := some "CPI",
    newsCurrency := some "USD", minutesFromNews := some (-45) }

/-- Four filtered candles (closes 1, 2, 3, 3/2). -/
def fourRows : List PriceRow :=
  [{ close := 1 }, { close := 2 }, { close := 3 }, { close := 3/2 }]

/-- Labeling settings: horizon 2, threshold 1/2. -/
def settingsH2 : LabelSettings := { horizon := 2, threshold := 1/2 }

/-- A single filtered candle. -/
def oneRow : List PriceRow := [{ close := 1 }]

/-- Labeling settings: horizon 3, threshold 1/2. -/
def settingsH3 : LabelSettings := { horizon := 3, threshold := 1/2 }

end DataPipeline

namespace DataPipeline

/-! ## Theorems -/

/-- C1, counterexample: on a page whose JSON-state blob is malformed but
whose DOM markup is well-formed, `parse_calendar_html` raises (it does not
fall through to the DOM strategy), the error escapes the parser boundary
through `scrape_week`'s re-raise, and yet `parse_calendar_dom` on the same
rows would have produced a non-empty event list. -/
theorem c1_counterexample :
    (parse_calendar_html malformedJsonPage).isOk = false ∧
    (scrapeParse malformedJsonPage).isOk = false ∧
    parse_calendar_dom malformedJsonPage.weekYear malformedJsonPage.domRows ≠ [] := by
  decide

/-- C1 (amended): `scrape_week` invokes only the js2py strategy
(`parse_calendar_html`); whenever the located JSON-state blob fails to
decode, both it and the surrounding parse stage of `scrape_week` raise,
whatever the DOM markup of the page holds — there is no fallback to
`parse_calendar_dom`. -/
theorem c1_malformed_json_always_raises :
    ∀ p : PageContent, p.statesBlob = some none →
      (parse_calendar_html p).isOk = false ∧ (scrapeParse p).isOk = false := by
  intro p h
  constructor
  · simp only [parse_calendar_html, h]
    rfl
  · simp only [scrapeParse, parse_calendar_html, h]
    rfl

/-- C1, witness for the amended theorem at the concrete malformed page. -/
theorem c1_malformed_json_always_raises_witness :
    malformedJsonPage.statesBlob = some none ∧
    (parse_calendar_html malformedJsonPage).isOk = false ∧
    (scrapeParse malformedJsonPage).isOk = false :=
  ⟨by decide, c1_malformed_json_always_raises malformedJsonPage (by decide)⟩

/-- C2, counterexample: `parse_calendar_html_json` builds different identity
keys for two events that differ only in their `actual` value (their names
are empty, so the fallback composite — which incorporates
actual/forecast/previous — enters the hash input). -/
theorem c2_counterexample :
    twinEventsKeys.length = 2 ∧ twinEventsKeys.getD 0 "" ≠ twinEventsKeys.getD 1 "" := by
  decide

/-- C2 (amended): the identity key of `parse_calendar_html_json` is pure —
it depends only on (timestamp, currency, name-or-fallback) — and whenever
the event name is non-empty, changing only actual/forecast/previous never
changes the key; with an empty name the fallback composite makes the key
depend on those volatile fields (see the counterexample).  The js2py
strategy's key (`htmlIdInput`) takes no actual/forecast/previous input at
all. -/
theorem c2_key_purity_and_fallback :
    (∀ (ts ts' : PyDateTime) (cur cur' n n' a a' f f' p p' : String),
      ts = ts' → cur = cur' →
      orElseStr n (jsonFallbackEvent a f p) = orElseStr n' (jsonFallbackEvent a' f' p') →
      json_event_id ts cur n a f p = json_event_id ts' cur' n' a' f' p') ∧
    (∀ (ts : PyDateTime) (cur n a a' f f' p p' : String), n ≠ "" →
      json_event_id ts cur n a f p = json_event_id ts cur n a' f' p') := by
  constructor
  · intro ts ts' cur cur' n n' a a' f f' p p' hts hcur hnf
    subst hts
    subst hcur
    unfold json_event_id jsonIdInput
    rw [hnf]
  · intro ts cur n a a' f f' p p' hn
    unfold json_event_id jsonIdInput orElseStr
    simp only [if_neg hn]

/-- C2, witness: the amended theorem applied at a named event, where the key
ignores actual/forecast/previous. -/
theorem c2_key_purity_and_fallback_witness :
    ("CPI" : String) ≠ "" ∧
    json_event_id { year := 2024, month := 7, day := 1, hour := 0, minute := 0, second := 0 }
        "USD" "CPI" "1.0" "2.0" "3.0" =
      json_event_id { year := 2024, month := 7, day := 1, hour := 0, minute := 0, second := 0 }
        "USD" "CPI" "9.9" "8.8" "7.7" :=
  ⟨by decide,
    c2_key_purity_and_fallback.2
      { year := 2024, month := 7, day := 1, hour := 0, minute := 0, second := 0 }
      "USD" "CPI" "1.0" "9.9" "2.0" "8.8" "3.0" "7.7" (by decide)⟩

/-- C3, counterexample: merging two weekly tables that share the identity key
`"k"` with differing `actual` values yields two rows carrying that key, not
one — `merge_all_weeks` performs no deduplication. -/
theorem c3_counterexample :
    (merge_all_weeks [[weekRowA], [weekRowB]]).countP (fun r => r.event_id == "k") = 2 ∧
      (2 : Nat) ≠ 1 := by
  decide

/-- C3 (amended): `merge_all_weeks` concatenates the weekly tables and sorts
by timestamp without deduplicating, so every occurrence of an identity key in
the input tables survives into the merged output (the merged table's count
for any key equals the concatenation's count; no last-seen-wins collapse
happens). -/
theorem c3_merge_keeps_every_occurrence :
    ∀ (tables : List (List CsvRow)) (k : String),
      (merge_all_weeks tables).countP (fun r => r.event_id == k) =
        tables.flatten.countP (fun r => r.event_id == k) := by
  intro tables k
  unfold merge_all_weeks
  exact (List.perm_insertionSort _ _).countP_eq _

/-- C6, counterexample: the fused day string `"MonJul01"` of the claim does
not parse — the repair inserts a space only after the weekday, and Python's
`%b %d` still requires whitespace between month and day — so no
`2024-07-01` timestamp is produced (a `RuntimeError` is raised instead);
the claimed reference form `"Mon Jul01"` fails equally. -/
theorem c6_counterexample :
    (parse_calendar_time 2024 "MonJul01" "12:00am").isOk = false ∧
    (parse_calendar_time 2024 "MonJul01" "").isOk = false ∧
    (parse_calendar_time 2024 "Mon Jul01" "12:00am").isOk = false := by
  decide

/-- Pages whose repaired day strings agree parse to the same timestamp (only
the raised error message can differ, since it echoes the raw day string). -/
theorem parse_time_repair_congr (y : Nat) (d1 d2 t : String)
    (h : repairDay d1 = repairDay d2) :
    (parse_calendar_time y d1 t).toOption = (parse_calendar_time y d2 t).toOption := by
  unfold parse_calendar_time
  rw [h]
  cases strptimeFull (repairDay d2 ++ " " ++ toString y ++ " " ++ t) <;>
    cases strptimeDate (repairDay d2 ++ " " ++ toString y) <;> rfl

/-- C6 (amended): for a week anchored in 2024, the fused day string
`"MonJul 01"` (weekday and month fused, the day number separated) parses to
the same date as `"Mon Jul 01"` with the missing space inserted, producing
the date-only timestamp `2024-07-01` (the claim's `"MonJul01"`, with the day
number also fused, is rejected — see the counterexample). -/
theorem c6_fused_day_repair :
    (∀ t : String, (parse_calendar_time 2024 "MonJul 01" t).toOption =
        (parse_calendar_time 2024 "Mon Jul 01" t).toOption) ∧
    parse_calendar_time 2024 "MonJul 01" "" =
      .ok { year := 2024, month := 7, day := 1, hour := 0, minute := 0, second := 0 } := by
  constructor
  · intro t
    exact parse_time_repair_congr 2024 "MonJul 01" "Mon Jul 01" t (by decide)
  · rfl

/-- C7, counterexample: a DOM row with a blank time string but an inherited
day heading is skipped by `parse_calendar_dom`, not kept as a date-only
event. -/
theorem c7_counterexample :
    parse_calendar_dom 2024 [blankTimeRow] = [] := by
  decide

/-- C7 (amended): in the DOM strategy, a row is skipped whenever its time
string is blank OR its effective day heading is empty (so a blank-time row
is dropped even with an inherited day); a row whose non-blank time string
parses with the inherited day — `"All Day"` in particular, which falls to
the date-only format — is kept with that timestamp; `"All Day"` under
`"Mon Jul 1"` in 2024 yields the date-only (midnight) timestamp
`2024-07-01 00:00:00`. -/
theorem c7_dom_row_keep_and_skip :
    (∀ (yr : Nat) (cur : String) (r : DomRow),
      r.timeCell.getD "" = "" ∨ effectiveDay cur r = "" →
      (domRowStep yr cur r).2 = none) ∧
    (∀ (yr : Nat) (cur : String) (r : DomRow) (dt : PyDateTime),
      parse_calendar_time yr (effectiveDay cur r) (r.timeCell.getD "") = .ok dt →
      ¬ (r.timeCell.getD "" = "" ∨ effectiveDay cur r = "") →
      ∃ ev, (domRowStep yr cur r).2 = some ev ∧ ev.timestamp = dt ∧
        ev.day = effectiveDay cur r) ∧
    parse_calendar_time 2024 "Mon Jul 1" "All Day" =
      .ok { year := 2024, month := 7, day := 1, hour := 0, minute := 0, second := 0 } := by
  refine ⟨?_, ?_, by rfl⟩
  · intro yr cur r h
    simp only [domRowStep]
    rw [if_pos h]
  · intro yr cur r dt hok h
    simp only [domRowStep]
    rw [if_neg h, hok]
    exact ⟨_, rfl, rfl, rfl⟩

/-- C7, witness: the amended theorem applied at the blank-time row (skipped)
and at the All-Day row under an inherited heading (kept, date-only). -/
theorem c7_dom_row_keep_and_skip_witness :
    ((blankTimeRow.timeCell.getD "" = "" ∨ effectiveDay "" blankTimeRow = "") ∧
      (domRowStep 2024 "" blankTimeRow).2 = none) ∧
    (parse_calendar_time 2024 (effectiveDay "Mon Jul 1" allDayRow)
        (allDayRow.timeCell.getD "") =
        .ok { year := 2024, month := 7, day := 1, hour := 0, minute := 0, second := 0 } ∧
      ¬ (allDayRow.timeCell.getD "" = "" ∨ effectiveDay "Mon Jul 1" allDayRow = "") ∧
      ∃ ev, (domRowStep 2024 "Mon Jul 1" allDayRow).2 = some ev ∧
        ev.timestamp = { year := 2024, month := 7, day := 1, hour := 0, minute := 0,
                         second := 0 } ∧
        ev.day = effectiveDay "Mon Jul 1" allDayRow) :=
  ⟨⟨by decide, c7_dom_row_keep_and_skip.1 2024 "" blankTimeRow (by decide)⟩,
    by rfl, by decide,
    c7_dom_row_keep_and_skip.2.1 2024 "Mon Jul 1" allDayRow
      { year := 2024, month := 7, day := 1, hour := 0, minute := 0, second := 0 }
      (by rfl) (by decide)⟩

/-! ### Campaign-loop lemmas -/

/-- Every loop iteration records its week as processed, in both branches. -/
theorem stepWeek_processed (scrape : Nat → Nat → ScrapeOut) (st : LoopState) (w : Nat) :
    (stepWeek scrape st w).processed = st.processed ++ [w] := by
  cases hl : lookupFile st.files w <;> simp [stepWeek, hl]

/-- The loop processes exactly the given weeks, in order, whatever the
cache state and fetch outcomes. -/
theorem runLoop_processed (scrape : Nat → Nat → ScrapeOut) :
    ∀ (ws : List Nat) (st : LoopState), (runLoop scrape ws st).processed = st.processed ++ ws := by
  intro ws
  induction ws with
  | nil => intro st; simp [runLoop]
  | cons w ws ih =>
    intro st
    have h1 : runLoop scrape (w :: ws) st = runLoop scrape ws (stepWeek scrape st w) := rfl
    rw [h1, ih, stepWeek_processed]
    simp

/-- A fully cached prefix of weeks is only skipped: no fetch, no file change,
no failure. -/
theorem runLoop_all_cached (scrape : Nat → Nat → ScrapeOut) :
    ∀ (ws : List Nat) (st : LoopState),
      (∀ w ∈ ws, (lookupFile st.files w).isSome) →
      runLoop scrape ws st =
        { st with skippedWeeks := st.skippedWeeks ++ ws, processed := st.processed ++ ws } := by
  intro ws
  induction ws with
  | nil => intro st _; simp [runLoop]
  | cons w ws ih =>
    intro st h
    obtain ⟨t, ht⟩ := Option.isSome_iff_exists.mp (h w (by simp))
    have hstep : stepWeek scrape st w =
        { st with skippedWeeks := st.skippedWeeks ++ [w], processed := st.processed ++ [w] } := by
      simp [stepWeek, ht]
    have h1 : runLoop scrape (w :: ws) st = runLoop scrape ws (stepWeek scrape st w) := rfl
    rw [h1, hstep,
      ih { st with skippedWeeks := st.skippedWeeks ++ [w], processed := st.processed ++ [w] }
        (fun w' hw' => h w' (List.mem_cons_of_mem _ hw'))]
    simp

/-- When every attempt raises, the attempt loop makes one fetch per attempt,
saves nothing, and reports failure. -/
theorem runWeekAttempts_all_fail (scrape : Nat → Nat → ScrapeOut) (w : Nat) :
    ∀ (as : List Nat), (∀ a ∈ as, scrape w a = ScrapeOut.fail) →
      runWeekAttempts scrape w as = (as.length, none, true) := by
  intro as
  induction as with
  | nil => intro _; rfl
  | cons a as ih =>
    intro h
    have ha : scrape w a = ScrapeOut.fail := h a (by simp)
    simp [runWeekAttempts, ha, ih (fun a' ha' => h a' (List.mem_cons_of_mem _ ha'))]

/-- Appending a file for a different week does not make a missing file
appear. -/
theorem lookupFile_append_none (fs : List (Nat × List CsvRow)) (w w' : Nat)
    (t : List CsvRow) (h : lookupFile fs w = none) (hne : w' ≠ w) :
    lookupFile (fs ++ [(w', t)]) w = none := by
  unfold lookupFile at *
  rw [List.find?_append]
  have h2 : fs.find? (fun p => p.1 = w) = none := by
    cases hf : fs.find? (fun p => p.1 = w)
    · rfl
    · rw [hf] at h
      simp at h
  rw [h2]
  simp [List.find?, hne]

/-- If a week is absent from the files and all its attempts fail, it stays
absent, and once it is marked failed or lies among the remaining weeks it
ends up in the failed list: the loop keeps going past it. -/
theorem runLoop_all_fail_invariant (scrape : Nat → Nat → ScrapeOut) (w : Nat)
    (hfail : ∀ a ∈ [1, 2, 3], scrape w a = ScrapeOut.fail) :
    ∀ (ws : List Nat) (st : LoopState), lookupFile st.files w = none →
      lookupFile (runLoop scrape ws st).files w = none ∧
      ((w ∈ ws ∨ w ∈ st.failedWeeks) → w ∈ (runLoop scrape ws st).failedWeeks) := by
  intro ws
  induction ws with
  | nil =>
    intro st hnone
    refine ⟨hnone, ?_⟩
    intro h
    rcases h with h | h
    · simp at h
    · simpa [runLoop] using h
  | cons w' ws ih =>
    intro st hnone
    have h1 : runLoop scrape (w' :: ws) st = runLoop scrape ws (stepWeek scrape st w') := rfl
    by_cases hw : w' = w
    · subst hw
      have hstep : stepWeek scrape st w' =
          { fetchCalls := st.fetchCalls + 3, files := st.files,
            skippedWeeks := st.skippedWeeks,
            failedWeeks := st.failedWeeks ++ [w'], processed := st.processed ++ [w'] } := by
        simp [stepWeek, hnone, runWeekAttempts_all_fail scrape w' [1, 2, 3] hfail]
      rw [h1, hstep]
      have := ih
        { fetchCalls := st.fetchCalls + 3, files := st.files,
          skippedWeeks := st.skippedWeeks,
          failedWeeks := st.failedWeeks ++ [w'], processed := st.processed ++ [w'] } hnone
      refine ⟨this.1, fun _ => this.2 (Or.inr (by simp))⟩
    · cases hl : lookupFile st.files w' with
      | some t =>
        have hstep : stepWeek scrape st w' =
            { st with
              skippedWeeks := st.skippedWeeks ++ [w'],
              processed := st.processed ++ [w'] } := by
          simp [stepWeek, hl]
        rw [h1, hstep]
        have := ih
          { st with
            skippedWeeks := st.skippedWeeks ++ [w'],
            processed := st.processed ++ [w'] } (by simpa using hnone)
        refine ⟨this.1, ?_⟩
        intro h
        refine this.2 ?_
        rcases h with h | h
        · rcases List.mem_cons.mp h with h | h
          · exact absurd h.symm hw
          · exact Or.inl h
        · exact Or.inr (by simpa using h)
      | none =>
        have h2 : runLoop scrape (w' :: ws) st = runLoop scrape ws (stepWeek scrape st w') := rfl
        have hfiles : lookupFile (stepWeek scrape st w').files w = none := by
          simp only [stepWeek, hl]
          cases hr : (runWeekAttempts scrape w' [1, 2, 3]).2.1
          · simpa using hnone
          · simpa using lookupFile_append_none st.files w w' _ hnone hw
        have hfailed : st.failedWeeks ⊆ (stepWeek scrape st w').failedWeeks := by
          simp only [stepWeek, hl]
          cases hr : (runWeekAttempts scrape w' [1, 2, 3]).2.2 <;>
            simp [List.subset_append_left]
        have := ih (stepWeek scrape st w') hfiles
        rw [h2]
        refine ⟨this.1, ?_⟩
        intro h
        refine this.2 ?_
        rcases h with h | h
        · rcases List.mem_cons.mp h with h | h
          · exact absurd h.symm hw
          · exact Or.inl h
        · exact Or.inr (hfailed h)

/-- C4: over a date range whose weekly tables are all already persisted, the
campaign makes zero fetch calls, leaves the persisted files untouched, and
produces the merged output determined by those files alone; in particular the
run is independent of the fetch oracle, so a re-run reproduces an identical
merged output. -/
theorem c4_cached_range_idempotent :
    ∀ (scrape scrape2 : Nat → Nat → ScrapeOut) (start endD : Nat)
      (files0 : List (Nat × List CsvRow)),
      (∀ w ∈ campaignWeeks start endD, (lookupFile files0 w).isSome) →
      (runCampaign scrape start endD files0).fetchCalls = 0 ∧
      (runCampaign scrape start endD files0).files = files0 ∧
      (runCampaign scrape start endD files0).mergedOutput = campaignMerged files0 ∧
      runCampaign scrape start endD files0 = runCampaign scrape2 start endD files0 := by
  intro scrape scrape2 start endD files0 h
  have e1 := runLoop_all_cached scrape (campaignWeeks start endD)
    { fetchCalls := 0, files := files0, skippedWeeks := [], failedWeeks := [], processed := [] }
    (by simpa using h)
  have e2 := runLoop_all_cached scrape2 (campaignWeeks start endD)
    { fetchCalls := 0, files := files0, skippedWeeks := [], failedWeeks := [], processed := [] }
    (by simpa using h)
  unfold runCampaign
  rw [e1, e2]
  exact ⟨rfl, rfl, rfl, rfl⟩

/-- C4, witness: a three-week range, all three weeks cached; the campaign
fetches nothing and its merged output is that of the cached files, for two
different fetch oracles. -/
theorem c4_cached_range_idempotent_witness :
    (∀ w ∈ campaignWeeks 0 14, (lookupFile [(0, [weekRowA]), (7, [weekRowB]), (14, [])] w).isSome) ∧
    (runCampaign (fun _ _ => ScrapeOut.fail) 0 14
        [(0, [weekRowA]), (7, [weekRowB]), (14, [])]).fetchCalls = 0 ∧
    (runCampaign (fun _ _ => ScrapeOut.fail) 0 14
        [(0, [weekRowA]), (7, [weekRowB]), (14, [])]).files =
      [(0, [weekRowA]), (7, [weekRowB]), (14, [])] ∧
    (runCampaign (fun _ _ => ScrapeOut.fail) 0 14
        [(0, [weekRowA]), (7, [weekRowB]), (14, [])]).mergedOutput =
      campaignMerged [(0, [weekRowA]), (7, [weekRowB]), (14, [])] ∧
    runCampaign (fun _ _ => ScrapeOut.fail) 0 14 [(0, [weekRowA]), (7, [weekRowB]), (14, [])] =
      runCampaign (fun _ _ => ScrapeOut.okEmpty) 0 14
        [(0, [weekRowA]), (7, [weekRowB]), (14, [])] :=
  ⟨by decide,
    c4_cached_range_idempotent (fun _ _ => ScrapeOut.fail) (fun _ _ => ScrapeOut.okEmpty)
      0 14 [(0, [weekRowA]), (7, [weekRowB]), (14, [])] (by decide)⟩

/-- C8: a week that is not cached and whose three attempts all raise is
recorded as a terminal failure for that week only: every week of the range is
still processed (the loop reaches all later weeks), and the final merge runs
over whatever files the campaign ended with. -/
theorem c8_failed_week_never_aborts :
    ∀ (scrape : Nat → Nat → ScrapeOut) (start endD : Nat)
      (files0 : List (Nat × List CsvRow)) (w : Nat),
      lookupFile files0 w = none →
      (∀ a ∈ [1, 2, 3], scrape w a = ScrapeOut.fail) →
      w ∈ campaignWeeks start endD →
      w ∈ (runCampaign scrape start endD files0).failedWeeks ∧
      (runCampaign scrape start endD files0).processed = campaignWeeks start endD ∧
      (runCampaign scrape start endD files0).mergedOutput =
        campaignMerged (runCampaign scrape start endD files0).files := by
  intro scrape start endD files0 w hnone hfail hmem
  have hinv := runLoop_all_fail_invariant scrape w hfail (campaignWeeks start endD)
    { fetchCalls := 0, files := files0, skippedWeeks := [], failedWeeks := [], processed := [] }
    (by simpa using hnone)
  have hproc := runLoop_processed scrape (campaignWeeks start endD)
    { fetchCalls := 0, files := files0, skippedWeeks := [], failedWeeks := [], processed := [] }
  exact ⟨hinv.2 (Or.inl hmem), by simpa using hproc, rfl⟩

/-- C8, witness: week 7 of a three-week range always fails; it lands in the
failed list while the whole range is processed and the merge still runs. -/
theorem c8_failed_week_never_aborts_witness :
    lookupFile [] 7 = none ∧
    (∀ a ∈ [1, 2, 3], (fun (w : Nat) (_ : Nat) =>
      if w = 7 then ScrapeOut.fail else ScrapeOut.okSave [weekRowA]) 7 a = ScrapeOut.fail) ∧
    7 ∈ campaignWeeks 0 14 ∧
    7 ∈ (runCampaign (fun w _ => if w = 7 then ScrapeOut.fail else ScrapeOut.okSave [weekRowA])
        0 14 []).failedWeeks ∧
    (runCampaign (fun w _ => if w = 7 then ScrapeOut.fail else ScrapeOut.okSave [weekRowA])
        0 14 []).processed = campaignWeeks 0 14 ∧
    (runCampaign (fun w _ => if w = 7 then ScrapeOut.fail else ScrapeOut.okSave [weekRowA])
        0 14 []).mergedOutput =
      campaignMerged (runCampaign
        (fun w _ => if w = 7 then ScrapeOut.fail else ScrapeOut.okSave [weekRowA]) 0 14 []).files :=
  ⟨by decide, by decide, by decide,
    c8_failed_week_never_aborts
      (fun w _ => if w = 7 then ScrapeOut.fail else ScrapeOut.okSave [weekRowA])
      0 14 [] 7 (by decide) (by decide) (by decide)⟩

/-! ### Joiner lemmas and claims C5, C10 -/

/-- The loop body attaches the nearest windowed event: whenever `tagOne`
returns a tagged row and the window is non-empty, the attached columns come
from an event of the window that minimises the absolute time distance, and
the minutes offset is the signed candle-minus-event difference. -/
theorem tagOne_attaches_nearest (news : List NewsRow) (wm : Int) (c : Candle)
    (tc : TaggedCandle) (hok : tagOne news wm c = .ok tc)
    (hne : nearbyNews news wm c ≠ []) :
    ∃ ev, ev ∈ nearbyNews news wm c ∧ nearestNews news wm c = some ev ∧
      tc.newsImpact = (pySplitWs ev.impact).head? ∧
      tc.newsEvent = some ev.event ∧ tc.newsCurrency = some ev.currency ∧
      tc.minutesFromNews = some (Int.tdiv (c.time - ev.timestamp) 60) ∧
      ∀ o ∈ nearbyNews news wm c,
        (ev.timestamp - c.time).natAbs ≤ (o.timestamp - c.time).natAbs := by
  haveI htot : IsTotal NewsRow
      (fun a b : NewsRow => (a.timestamp - c.time).natAbs ≤ (b.timestamp - c.time).natAbs) :=
    ⟨fun x y => Nat.le_total _ _⟩
  haveI htr : IsTrans NewsRow
      (fun a b : NewsRow => (a.timestamp - c.time).natAbs ≤ (b.timestamp - c.time).natAbs) :=
    ⟨fun x y z h1 h2 => Nat.le_trans h1 h2⟩
  cases hs : List.insertionSort
      (fun a b : NewsRow => (a.timestamp - c.time).natAbs ≤ (b.timestamp - c.time).natAbs)
      (nearbyNews news wm c) with
  | nil =>
    exfalso
    have hlen := List.length_insertionSort
      (fun a b : NewsRow => (a.timestamp - c.time).natAbs ≤ (b.timestamp - c.time).natAbs)
      (nearbyNews news wm c)
    rw [hs] at hlen
    exact hne (List.length_eq_zero.mp hlen.symm)
  | cons ev rest =>
    have hnn : nearestNews news wm c = some ev := by
      unfold nearestNews
      rw [hs]
      rfl
    refine ⟨ev, ?_, hnn, ?_⟩
    · have hmem : ev ∈ List.insertionSort
          (fun a b : NewsRow => (a.timestamp - c.time).natAbs ≤ (b.timestamp - c.time).natAbs)
          (nearbyNews news wm c) := by
        rw [hs]
        exact List.mem_cons_self _ _
      exact (List.mem_insertionSort _).mp hmem
    · rcases hnb : nearbyNews news wm c with _ | ⟨a, as⟩
      · exact absurd hnb hne
      · simp only [tagOne, hnb] at hok
        simp only [hnn] at hok
        cases hsp : pySplitWs ev.impact with
        | nil =>
          simp only [hsp] at hok
          exact Except.noConfusion hok
        | cons tok toks =>
          simp only [hsp] at hok
          injection hok with htc
          rw [← htc]
          refine ⟨rfl, rfl, rfl, rfl, ?_⟩
          intro o ho
          rw [← hnb] at ho
          have hsorted := List.sorted_insertionSort
            (fun a b : NewsRow => (a.timestamp - c.time).natAbs ≤ (b.timestamp - c.time).natAbs)
            (nearbyNews news wm c)
          rw [hs] at hsorted
          have ho2 : o ∈ ev :: rest := by
            rw [← hs]
            exact (List.mem_insertionSort _).mpr ho
          rcases List.mem_cons.mp ho2 with h | h
          · rw [h]
          · exact List.rel_of_sorted_cons hsorted o h

/-- C5 (amended): the 12:00-candle / 12:45-event scenario with a ±60-minute
window attaches the event's impact (first token), name, and currency, and
yields `minutes_from_news = -45` — the offset is the signed candle-minus-event
difference, not the claimed `45`; in general each candle with a non-empty
window is joined to an event minimising the absolute time distance within the
window. -/
theorem c5_join_nearest_signed_offset :
    tag_news_to_candles [noonCandle] [newsAt1245] 60 = .ok [noonTagged] ∧
    (∀ (news : List NewsRow) (wm : Int) (c : Candle) (tc : TaggedCandle),
      tagOne news wm c = .ok tc → nearbyNews news wm c ≠ [] →
      ∃ ev, ev ∈ nearbyNews news wm c ∧ nearestNews news wm c = some ev ∧
        tc.newsImpact = (pySplitWs ev.impact).head? ∧
        tc.newsEvent = some ev.event ∧ tc.newsCurrency = some ev.currency ∧
        tc.minutesFromNews = some (Int.tdiv (c.time - ev.timestamp) 60) ∧
        ∀ o ∈ nearbyNews news wm c,
          (ev.timestamp - c.time).natAbs ≤ (o.timestamp - c.time).natAbs) :=
  ⟨by rfl, tagOne_attaches_nearest⟩

/-- C5, witness for the quantified part at the concrete noon scenario. -/
theorem c5_join_nearest_signed_offset_witness :
    tagOne [newsAt1245] 60 noonCandle = .ok noonTagged ∧
    nearbyNews [newsAt1245] 60 noonCandle ≠ [] ∧
    ∃ ev, ev ∈ nearbyNews [newsAt1245] 60 noonCandle ∧
      nearestNews [newsAt1245] 60 noonCandle = some ev ∧
      noonTagged.newsImpact = (pySplitWs ev.impact).head? ∧
      noonTagged.newsEvent = some ev.event ∧ noonTagged.newsCurrency = some ev.currency ∧
      noonTagged.minutesFromNews = some (Int.tdiv (noonCandle.time - ev.timestamp) 60) ∧
      ∀ o ∈ nearbyNews [newsAt1245] 60 noonCandle,
        (ev.timestamp - noonCandle.time).natAbs ≤ (o.timestamp - noonCandle.time).natAbs :=
  ⟨by rfl, by decide,
    c5_join_nearest_signed_offset.2 [newsAt1245] 60 noonCandle noonTagged (by rfl) (by decide)⟩

/-- C5, counterexample: the claim's scenario produces `minutes_from_news`
equal to `-45` (candle minus event), not the claimed `45`. -/
theorem c5_counterexample :
    ((tag_news_to_candles [noonCandle] [newsAt1245] 60).toOption.getD []).map
      (fun t => t.minutesFromNews) = [some (-45)] ∧
    some (-45 : Int) ≠ some (45 : Int) := by
  decide

/-- A candle whose nearest windowed event has a token-free impact string
makes the loop body raise. -/
theorem tagOne_isOk_false_of_blank_impact (news : List NewsRow) (wm : Int) (c : Candle)
    (ev : NewsRow) (hne : nearestNews news wm c = some ev)
    (hsp : pySplitWs ev.impact = []) : (tagOne news wm c).isOk = false := by
  rcases hnb : nearbyNews news wm c with _ | ⟨a, as⟩
  · exfalso
    unfold nearestNews at hne
    rw [hnb] at hne
    simp [List.insertionSort] at hne
  · simp only [tagOne, hnb]
    simp only [hne, hsp]
    rfl

/-- An erroring candle anywhere in the list makes the whole join raise. -/
theorem tagAll_isOk_false_of_mem (news : List NewsRow) (wm : Int) :
    ∀ (cs : List Candle) (c : Candle), c ∈ cs → (tagOne news wm c).isOk = false →
      (tagAll news wm cs).isOk = false := by
  intro cs
  induction cs with
  | nil =>
    intro c hc _
    simp at hc
  | cons a as ih =>
    intro c hc herr
    rcases List.mem_cons.mp hc with h | h
    · subst h
      cases hx : tagOne news wm c with
      | error e => simp only [tagAll, hx]; rfl
      | ok v =>
        rw [hx] at herr
        exact Bool.noConfusion herr
    · cases hx : tagOne news wm a with
      | error e => simp only [tagAll, hx]; rfl
      | ok v =>
        cases hy : tagAll news wm as with
        | error e => simp only [tagAll, hx, hy]; rfl
        | ok rest =>
          have := ih c h herr
          rw [hy] at this
          exact Bool.noConfusion this

/-- C10: `tag_news_to_candles` raises (`IndexError` from
`closest['impact'].split()[0]`) whenever some candle has at least one event
within the window and the nearest such event's impact is empty or
whitespace-only, because the attached impact is the first whitespace-split
token of the impact string. -/
theorem c10_blank_impact_raises :
    ∀ (candles : List Candle) (news : List NewsRow) (wm : Int) (c : Candle) (ev : NewsRow),
      c ∈ candles →
      nearestNews (List.insertionSort (fun a b : NewsRow => a.timestamp ≤ b.timestamp) news)
        wm c = some ev →
      pySplitWs ev.impact = [] →
      (tag_news_to_candles candles news wm).isOk = false := by
  intro candles news wm c ev hc hne hsp
  have hc2 : c ∈ List.insertionSort (fun a b : Candle => a.time ≤ b.time) candles :=
    (List.mem_insertionSort _).mpr hc
  exact tagAll_isOk_false_of_mem _ wm _ c hc2
    (tagOne_isOk_false_of_blank_impact _ wm c ev hne hsp)

/-- C10, witness: a single candle whose only windowed event carries a
whitespace-only impact makes the join raise. -/
theorem c10_blank_impact_raises_witness :
    noonCandle ∈ [noonCandle] ∧
    nearestNews (List.insertionSort (fun a b : NewsRow => a.timestamp ≤ b.timestamp)
      [blankImpactNews]) 60 noonCandle = some blankImpactNews ∧
    pySplitWs blankImpactNews.impact = [] ∧
    (tag_news_to_candles [noonCandle] [blankImpactNews] 60).isOk = false :=
  ⟨by decide, by decide, by decide,
    c10_blank_impact_raises [noonCandle] [blankImpactNews] 60 noonCandle blankImpactNews
      (by decide) (by decide) (by decide)⟩

/-! ### Labeler lemmas and claim C9 -/

/-- Pointwise description of `zip` through `getD`. -/
theorem zip_getD {α β : Type} (da : α) (db : β) :
    ∀ (as : List α) (bs : List β) (i : Nat), i < as.length → i < bs.length →
      (as.zip bs).getD i (da, db) = (as.getD i da, bs.getD i db) := by
  intro as
  induction as with
  | nil =>
    intro bs i h _
    simp at h
  | cons a as ih =>
    intro bs i h1 h2
    cases bs with
    | nil => simp at h2
    | cons b bs =>
      cases i with
      | zero => simp [List.zip]
      | succ j =>
        have := ih bs j (by simpa using h1) (by simpa using h2)
        simpa [List.zip] using this

/-- The label list has one entry per labelled index plus the padding. -/
theorem labelList_length (df : List PriceRow) (ls : LabelSettings) :
    (labelList df ls).length = df.length - ls.horizon + ls.horizon := by
  simp [labelList]

/-- C9: `generate_labels` is total exactly on tables with at least `horizon`
rows.  With `horizon <= len(df)` it returns the rows zipped with a label list
whose entry `i` (for `i + horizon < len(df)`) is `1`, `-1`, or `0` according
to whether `close[i+horizon] - close[i]` exceeds the threshold, is below its
negation, or neither, and whose last `horizon` entries are `None`; on a
non-empty table with fewer than `horizon` rows the label column assignment
raises (the constructed label list is longer than the table). -/
theorem c9_generate_labels_totality_boundary :
    ∀ (df : List PriceRow) (ls : LabelSettings),
      (ls.horizon ≤ df.length →
        generate_labels df ls = .ok (df.zip (labelList df ls)) ∧
        (labelList df ls).length = df.length ∧
        (∀ i, i + ls.horizon < df.length →
          (labelList df ls).getD i none =
            if (df.getD (i + ls.horizon) dfltRow).close - (df.getD i dfltRow).close >
                ls.threshold then some 1
              else if (df.getD (i + ls.horizon) dfltRow).close - (df.getD i dfltRow).close <
                -ls.threshold then some (-1)
              else some 0) ∧
        (∀ i, df.length - ls.horizon ≤ i → (labelList df ls).getD i none = none) ∧
        (∀ i, i < df.length →
          (df.zip (labelList df ls)).getD i (dfltRow, none) =
            (df.getD i dfltRow, (labelList df ls).getD i none))) ∧
      ((df ≠ [] → df.length < ls.horizon → (generate_labels df ls).isOk = false)) := by
  intro df ls
  constructor
  · intro hge
    have hlen : (labelList df ls).length = df.length := by
      rw [labelList_length]
      omega
    refine ⟨?_, hlen, ?_, ?_, ?_⟩
    · simp only [generate_labels, hlen, if_pos]
    · intro i hi
      have hiA : i < df.length - ls.horizon := by omega
      unfold labelList
      rw [List.getD_append _ _ _ _ (by simpa using hiA)]
      rw [List.getD_eq_getElem?_getD, List.getElem?_map, List.getElem?_range hiA]
      rfl
    · intro i hi
      unfold labelList
      rw [List.getD_append_right _ _ _ _ (by simpa using hi)]
      rw [List.getD_eq_getElem?_getD, List.getElem?_replicate]
      split <;> rfl
    · intro i hi
      exact zip_getD dfltRow none df (labelList df ls) i hi (by omega)
  · intro _ hlt
    have hne2 : (labelList df ls).length ≠ df.length := by
      rw [labelList_length]
      omega
    simp only [generate_labels]
    rw [if_neg hne2]
    rfl

/-- C9, witness: four rows with horizon 2 label as described; a single row
with horizon 3 raises. -/
theorem c9_generate_labels_totality_boundary_witness :
    generate_labels fourRows settingsH2 = .ok (fourRows.zip (labelList fourRows settingsH2)) ∧
    (generate_labels oneRow settingsH3).isOk = false :=
  ⟨((c9_generate_labels_totality_boundary fourRows settingsH2).1 (by decide)).1,
    (c9_generate_labels_totality_boundary oneRow settingsH3).2 (by decide) (by decide)⟩

end DataPipeline
